import Mathlib

/-!
Verification of the natural-language-to-command resolution engine of a
Python web terminal (files `ai_terminal.py`, `terminal.py`).

The development shallowly embeds:
  * the Python string primitives the code relies on (`str.strip`,
    `str.split`, `str.lower`, `" ".join`, `shlex.quote`,
    `os.path.join`, `os.path.basename`), restricted to ASCII input,
    which is all the pattern table can capture;
  * a backtracking matcher equivalent to `re.search(pattern, query,
    re.IGNORECASE)` for the regex constructs actually used by the 24
    entries of `NLPCommand.command_patterns` (literals, non-capturing
    alternation of literal phrases, optional phrases, and greedy
    capture groups over a character class);
  * the pattern table, `NLPCommand.execute`, the handler adapters, and
    `Terminal.parse_command` / `Terminal.execute_command` with its
    command registry.

Filesystem and OS effects are represented by an explicit oracle record
`Fs`: commands whose output is produced by OS calls (`os.listdir`,
`psutil`, ...) read their result text from the oracle, while the code
paths the claims are about (branching on `os.path.isdir`, exception
capture of `shutil.move` / `os.rename` / `shutil.copy`, the `rm`
command's flag handling) are embedded structurally, with the underlying
OS call outcome drawn from the oracle.
-/

/-! ## Python string primitives -/

/-- Python `str` whitespace (ASCII): space, tab, newline, carriage
return, vertical tab, form feed. -/
def pyIsSpaceChar (c : Char) : Bool :=
  c = ' ' || c = '\t' || c = '\n' || c = '\r' || c.toNat = 11 || c.toNat = 12

/-- Python `\w` (ASCII range): letters, digits, underscore. -/
def pyIsWordChar (c : Char) : Bool :=
  c.isAlphanum || c = '_'

/-- Python `str.strip()` with no arguments: drop leading and trailing
whitespace. -/
def pstrip (s : String) : String :=
  String.mk ((((s.data.dropWhile pyIsSpaceChar).reverse).dropWhile pyIsSpaceChar).reverse)

/-- Helper for `pysplit`: split a character list on runs of whitespace,
accumulating the current (reversed) token. -/
def pysplitAux : List Char → List Char → List String
  | [], [] => []
  | [], acc => [String.mk acc.reverse]
  | c :: cs, acc =>
    if pyIsSpaceChar c then
      match acc with
      | [] => pysplitAux cs []
      | _ :: _ => String.mk acc.reverse :: pysplitAux cs []
    else
      pysplitAux cs (c :: acc)

/-- Python `str.split()` with no arguments: split on whitespace runs,
discarding empty tokens. -/
def pysplit (s : String) : List String :=
  pysplitAux s.data []

/-- Python `str.lower()` (ASCII case folding, which covers every string
the pattern table can produce). -/
def pyLower (s : String) : String :=
  String.mk (s.data.map Char.toLower)

/-! ## `shlex.quote` and POSIX path helpers -/

/-- Characters `shlex.quote` treats as safe: ASCII word characters plus
`@ % + = : , . /` and `-` (the complement of `_find_unsafe` in
`shlex.py`). -/
def shlexSafeChar (c : Char) : Bool :=
  pyIsWordChar c || c = '@' || c = '%' || c = '+' || c = '=' || c = ':' ||
    c = ',' || c = '.' || c = '/' || c = '-'

/-- The single-quote character, written by code point to keep the
source free of quote-escape literals. -/
def squote : Char := Char.ofNat 39

/-- Replacement performed by `s.replace("'", "'\"'\"'")` inside
`shlex.quote`. -/
def shlexEscapeQuotes : List Char → List Char
  | [] => []
  | c :: cs =>
    if c = squote then
      squote :: '"' :: squote :: '"' :: squote :: shlexEscapeQuotes cs
    else
      c :: shlexEscapeQuotes cs

/-- Python `shlex.quote`: empty strings become `''`, strings of safe
characters are returned unchanged, anything else is wrapped in single
quotes with embedded single quotes escaped. -/
def shlexQuote (s : String) : String :=
  if s = "" then String.mk [squote, squote]
  else if s.data.all shlexSafeChar then s
  else String.mk ([squote] ++ shlexEscapeQuotes s.data ++ [squote])

/-- Python `str.startswith`, computed on the character lists so that
every use is kernel-reducible. -/
def pyStartsWith (s pre : String) : Bool :=
  s.data.take pre.data.length == pre.data

/-- Python `str.endswith`, computed on the character lists. -/
def pyEndsWith (s suf : String) : Bool :=
  s.data.reverse.take suf.data.length == suf.data.reverse

/-- Embedding of `os.path.basename` (POSIX): the part after the last slash. -/
def osBasename (p : String) : String :=
  String.mk ((p.data.reverse.takeWhile (fun c => c ≠ '/')).reverse)

/-- Embedding of `os.path.join` (POSIX, two components). -/
def osJoin (a b : String) : String :=
  if pyStartsWith b "/" then b
  else if a = "" || pyEndsWith a "/" then a ++ b
  else a ++ "/" ++ b

/-! ## Regex matcher

`NLPCommand.execute` matches each pattern with
`re.search(pattern, query, re.IGNORECASE)`. The 24 patterns only use:
literal text, non-capturing alternation over literal phrases
(`(?:a|b)`), optional literal phrases (`(?:a|b)?`, `x?`, a lone ` ?`),
and greedy capture groups over a character class (`([\w\s./\\-]+)`,
`([\w\s./\\-]*)`, `(.*)`). The matcher below implements Python's
backtracking semantics for exactly these constructs: alternatives are
tried left to right, optional phrases prefer presence, captures are
greedy and give back one character at a time, and `search` scans start
positions left to right. -/

/-- Character classes occurring in the pattern table. -/
inductive CharCls
  | slotChars   -- `[\w\s./\\-]`
  | anyChar     -- `.` (anything except newline)
  deriving DecidableEq, Repr

/-- Membership test of a character class. -/
def CharCls.mem : CharCls → Char → Bool
  | .slotChars, c =>
    pyIsWordChar c || pyIsSpaceChar c || c = '.' || c = '/' || c = '\\' || c = '-'
  | .anyChar, c => c ≠ '\n'

/-- One element of a pattern: a literal phrase, an alternation of
literal phrases, an optional alternation of literal phrases, or a
greedy capture over a character class with a minimum repetition count
(`0` for `*`, `1` for `+`). -/
inductive Tok
  | lit (s : String)
  | alt (ss : List String)
  | opt (ss : List String)
  | cap (cls : CharCls) (mn : Nat)
  deriving DecidableEq, Repr

/-- Case-insensitive literal match: strip `ps` (the pattern text) from
the front of `cs`, comparing characters through `Char.toLower` as
`re.IGNORECASE` does for ASCII. -/
def stripPrefixCI : List Char → List Char → Option (List Char)
  | [], cs => some cs
  | _ :: _, [] => none
  | p :: ps, c :: cs =>
    if p.toLower = c.toLower then stripPrefixCI ps cs else none

/-- Try each alternative phrase in order; on a prefix match run the
continuation, and backtrack to the next alternative if it fails. -/
def tryAlts (k : List Char → Option (List String)) :
    List String → List Char → Option (List String)
  | [], _ => none
  | s :: ss, cs =>
    match stripPrefixCI s.data cs with
    | some cs' =>
      match k cs' with
      | some r => some r
      | none => tryAlts k ss cs
    | none => tryAlts k ss cs

/-- Greedy capture: `run` is the maximal class-satisfying prefix and
`rest` the input after it. Try capture lengths from `n` down to `mn`,
running the continuation on each candidate split. -/
def tryCap (k : String → List Char → Option (List String))
    (run rest : List Char) (mn : Nat) : Nat → Option (List String)
  | 0 =>
    if mn = 0 then k "" (run ++ rest) else none
  | n + 1 =>
    if n + 1 < mn then none
    else
      match k (String.mk (run.take (n + 1))) (run.drop (n + 1) ++ rest) with
      | some r => some r
      | none => tryCap k run rest mn n

/-- Match a token list against the input, accumulating captured groups
in reverse. Succeeding with tokens exhausted does not require the input
to be exhausted, mirroring the unanchored right end of `re.search`. -/
def matchToks : List Tok → List Char → List String → Option (List String)
  | [], _, gs => some gs.reverse
  | Tok.lit s :: toks, cs, gs =>
    match stripPrefixCI s.data cs with
    | some cs' => matchToks toks cs' gs
    | none => none
  | Tok.alt ss :: toks, cs, gs =>
    tryAlts (fun cs' => matchToks toks cs' gs) ss cs
  | Tok.opt ss :: toks, cs, gs =>
    match tryAlts (fun cs' => matchToks toks cs' gs) ss cs with
    | some r => some r
    | none => matchToks toks cs gs
  | Tok.cap cls mn :: toks, cs, gs =>
    let run := cs.takeWhile cls.mem
    tryCap (fun g cs' => matchToks toks cs' (g :: gs)) run (cs.drop run.length) mn run.length

/-- Scan start positions left to right, as `re.search` does, returning
the captured groups of the leftmost match. -/
def searchAux (toks : List Tok) : List Char → Option (List String)
  | [] => matchToks toks [] []
  | c :: cs =>
    match matchToks toks (c :: cs) [] with
    | some gs => some gs
    | none => searchAux toks cs

/-- Model of `re.search(pattern, query, re.IGNORECASE)`, returning
`match.groups()` on success. -/
def searchPat (toks : List Tok) (s : String) : Option (List String) :=
  searchAux toks s.data

example : searchPat [Tok.lit "ab", Tok.cap CharCls.slotChars 1] "xxAB cd" = some [" cd"] := by decide

/-! ## The pattern table of `NLPCommand.__init__`

Each `pat_*` definition transliterates one regex of
`self.command_patterns`, in registration order. Alternatives inside
`Tok.alt` / `Tok.opt` keep the left-to-right order of the Python
alternation. -/

def pat_create_directory : List Tok :=
  [Tok.lit "create ", Tok.opt ["a "], Tok.opt ["new "],
   Tok.alt ["directory", "folder"], Tok.opt [" called", " named"],
   Tok.lit " ", Tok.cap CharCls.slotChars 1]

def pat_make_directory : List Tok :=
  [Tok.lit "make ", Tok.opt ["a "], Tok.opt ["new "],
   Tok.alt ["directory", "folder"], Tok.opt [" called", " named"],
   Tok.lit " ", Tok.cap CharCls.slotChars 1]

def pat_create_file : List Tok :=
  [Tok.lit "create ", Tok.opt ["a "], Tok.opt ["new "], Tok.opt ["empty "],
   Tok.lit "file", Tok.opt [" called", " named"],
   Tok.lit " ", Tok.cap CharCls.slotChars 1]

def pat_touch_file : List Tok :=
  [Tok.lit "touch ", Tok.opt ["a "], Tok.opt ["new "],
   Tok.lit "file", Tok.opt [" called", " named"],
   Tok.lit " ", Tok.cap CharCls.slotChars 1]

def pat_show_files : List Tok :=
  [Tok.alt ["show", "list"], Tok.lit " ", Tok.opt ["the "],
   Tok.alt ["files", "contents"], Tok.opt [" in", " of"], Tok.opt [" the"],
   Tok.opt [" "], Tok.opt ["directory", "folder"], Tok.opt [" "],
   Tok.cap CharCls.slotChars 0]

def pat_what_files : List Tok :=
  [Tok.lit "what ", Tok.alt ["files", "directories"], Tok.lit " are ",
   Tok.alt ["in", "inside"], Tok.opt [" "], Tok.cap CharCls.slotChars 0]

def pat_show_content : List Tok :=
  [Tok.lit "show ", Tok.opt ["me "], Tok.opt ["the "], Tok.lit "content",
   Tok.opt ["s"], Tok.lit " of ", Tok.opt ["file "],
   Tok.cap CharCls.slotChars 1]

def pat_read_file : List Tok :=
  [Tok.alt ["read", "cat", "display", "print"], Tok.lit " ",
   Tok.opt ["file "], Tok.cap CharCls.slotChars 1]

def pat_delete_item : List Tok :=
  [Tok.alt ["delete", "remove"], Tok.lit " ",
   Tok.opt ["file ", "directory ", "folder "], Tok.cap CharCls.slotChars 1]

def pat_move_item : List Tok :=
  [Tok.lit "move ", Tok.opt ["file ", "directory ", "folder "],
   Tok.cap CharCls.slotChars 1, Tok.lit " to ",
   Tok.opt ["directory ", "folder "], Tok.cap CharCls.slotChars 1]

def pat_rename_item : List Tok :=
  [Tok.lit "rename ", Tok.opt ["file ", "directory ", "folder "],
   Tok.cap CharCls.slotChars 1, Tok.lit " to ", Tok.cap CharCls.slotChars 1]

def pat_copy_item : List Tok :=
  [Tok.lit "copy ", Tok.opt ["file ", "directory ", "folder "],
   Tok.cap CharCls.slotChars 1, Tok.lit " to ",
   Tok.opt ["directory ", "folder "], Tok.cap CharCls.slotChars 1]

def pat_change_directory : List Tok :=
  [Tok.lit "change ", Tok.opt ["to "], Tok.alt ["directory", "folder", "dir"],
   Tok.lit " ", Tok.cap CharCls.slotChars 1]

def pat_go_to : List Tok :=
  [Tok.alt ["go", "navigate"], Tok.lit " to ",
   Tok.opt ["directory", "folder", "dir"], Tok.opt [" "],
   Tok.cap CharCls.slotChars 1]

def pat_cd : List Tok :=
  [Tok.lit "cd ", Tok.opt ["to "], Tok.cap CharCls.slotChars 1]

def pat_processes : List Tok :=
  [Tok.alt ["show", "display", "list"], Tok.lit " ", Tok.opt ["running "],
   Tok.lit "processes"]

def pat_usage : List Tok :=
  [Tok.alt ["show", "display"], Tok.lit " ", Tok.opt ["system "],
   Tok.opt ["resource "], Tok.lit "usage"]

def pat_disk_usage : List Tok :=
  [Tok.alt ["show", "display"], Tok.lit " ", Tok.alt ["disk", "storage"],
   Tok.lit " ", Tok.alt ["usage", "space", "info"]]

def pat_current_directory : List Tok :=
  [Tok.alt ["what", "where"], Tok.lit " is ", Tok.opt ["my "],
   Tok.lit "current ", Tok.alt ["directory", "folder", "location"]]

def pat_history : List Tok :=
  [Tok.alt ["show", "display"], Tok.lit " ", Tok.opt ["command "],
   Tok.lit "history"]

def pat_commands : List Tok :=
  [Tok.alt ["show", "list", "display"], Tok.lit " ", Tok.opt ["available "],
   Tok.lit "commands"]

def pat_help_with : List Tok :=
  [Tok.alt ["how to", "help", "help with"], Tok.lit " ",
   Tok.cap CharCls.anyChar 0]

def pat_exit : List Tok :=
  [Tok.alt ["exit", "quit", "close"], Tok.lit " ",
   Tok.alt ["terminal", "program", "application"]]

def pat_clear : List Tok :=
  [Tok.lit "clear ", Tok.opt ["the "], Tok.alt ["screen", "terminal"]]

/-- The bound handler methods of `NLPCommand`, one constructor per
`_xxx` method referenced by the pattern table. -/
inductive Handler
  | createDirectory | createFile | listDirectory | showFileContent
  | removeItem | moveItem | renameItem | copyItem | changeDirectory
  | listProcesses | showResourceUsage | showDiskUsage | showCurrentDirectory
  | showHistory | showHelp | showCommandHelp | exitTerminal | clearScreen
  deriving DecidableEq, Repr

/-- Embedding of `self.command_patterns`: the ordered (pattern, handler) table. -/
def commandPatterns : List (List Tok × Handler) :=
  [(pat_create_directory, Handler.createDirectory),
   (pat_make_directory, Handler.createDirectory),
   (pat_create_file, Handler.createFile),
   (pat_touch_file, Handler.createFile),
   (pat_show_files, Handler.listDirectory),
   (pat_what_files, Handler.listDirectory),
   (pat_show_content, Handler.showFileContent),
   (pat_read_file, Handler.showFileContent),
   (pat_delete_item, Handler.removeItem),
   (pat_move_item, Handler.moveItem),
   (pat_rename_item, Handler.renameItem),
   (pat_copy_item, Handler.copyItem),
   (pat_change_directory, Handler.changeDirectory),
   (pat_go_to, Handler.changeDirectory),
   (pat_cd, Handler.changeDirectory),
   (pat_processes, Handler.listProcesses),
   (pat_usage, Handler.showResourceUsage),
   (pat_disk_usage, Handler.showDiskUsage),
   (pat_current_directory, Handler.showCurrentDirectory),
   (pat_history, Handler.showHistory),
   (pat_commands, Handler.showHelp),
   (pat_help_with, Handler.showCommandHelp),
   (pat_exit, Handler.exitTerminal),
   (pat_clear, Handler.clearScreen)]

example : searchPat pat_show_files "show files in Downloads" = some ["Downloads"] := by decide
example : searchPat pat_show_files "show files in" = some [""] := by decide
example : searchPat pat_move_item "move report.pdf to Documents" = some ["report.pdf", "Documents"] := by decide
example : searchPat pat_create_directory "create a new folder called Projects Folder" = some ["Projects Folder"] := by decide
example : searchPat pat_help_with "help with creating files" = some ["with creating files"] := by decide
example : searchPat pat_read_file "show files in cat pictures" = some ["pictures"] := by decide
example : searchPat pat_move_item "move a to b to c" = some ["a to b", "c"] := by decide
example : searchPat pat_show_files "SHOW FILES IN DOWNLOADS" = some ["DOWNLOADS"] := by decide
example : searchPat pat_show_files "list contents of the current directory" = some ["current directory"] := by decide
example : shlexQuote "Projects Folder" = "'Projects Folder'" := by decide
example : shlexQuote "" = "''" := by decide

/-! ## Filesystem / OS oracle and terminal state -/

/-- Exception classes distinguished by the `except` clauses of the
literal commands (`rm`, `mkdir`, ...). -/
inductive FsError
  | notFound
  | permission
  | other (msg : String)
  deriving DecidableEq, Repr

/-- Oracle for the OS-dependent behaviour the program observes. Pure
predicates (`os.path.isdir`, `os.path.exists`) and the outcomes of the
mutating calls are explicit; commands whose entire output is assembled
from OS query results (`ls`, `cat`, `cd`, `touch`, `mkdir`, `ps`,
`top`, `df`) read their output text from the oracle, since no claim
depends on that text's internal structure. -/
structure Fs where
  isDir : String → Bool
  pathExists : String → Bool
  cwd : String
  moveRes : String → String → Except String Unit
  renameRes : String → String → Except String Unit
  copytreeRes : String → String → Except String Unit
  copy2Res : String → String → Except String Unit
  rmtreeRes : String → Except FsError Unit
  removeRes : String → Except FsError Unit
  lsOut : List String → String
  cdOut : List String → String
  mkdirOut : List String → String
  touchOut : List String → String
  catOut : List String → String
  psOut : List String → String
  topOut : String
  dfOut : List String → String

/-- The mutable terminal state relevant to the claims:
`Terminal.command_history`. -/
structure TermState where
  command_history : List String
  deriving DecidableEq, Repr

/-! ## Literal commands (`terminal.py`) -/

/-- Error text for one path inside `RmCommand.execute`'s loop: the
explicit `Is a directory` refusal, and the rendering of the caught
exceptions (`FileNotFoundError` suppressed under `-f`). -/
def rmRenderError (force : Bool) (path : String) : FsError → Option String
  | FsError.notFound =>
    if force then none
    else some ("rm: cannot remove '" ++ path ++ "': No such file or directory")
  | FsError.permission =>
    some ("rm: cannot remove '" ++ path ++ "': Permission denied")
  | FsError.other e =>
    some ("rm: cannot remove '" ++ path ++ "': " ++ e)

/-- The per-path body of `RmCommand.execute`: directories need the
recursive flag (`shutil.rmtree`), files go through `os.remove`. -/
def rmPathError (fs : Fs) (recursive force : Bool) (path : String) : Option String :=
  if fs.isDir path then
    if recursive then
      match fs.rmtreeRes path with
      | Except.ok _ => none
      | Except.error e => rmRenderError force path e
    else
      some ("rm: cannot remove '" ++ path ++ "': Is a directory")
  else
    match fs.removeRes path with
    | Except.ok _ => none
    | Except.error e => rmRenderError force path e

/-- Embedding of `RmCommand.execute`. -/
def rm_execute (fs : Fs) (args : List String) : String :=
  if args = [] then "rm: missing operand"
  else
    let recursive := args.contains "-r" || args.contains "--recursive"
    let force := args.contains "-f" || args.contains "--force"
    let paths := args.filter (fun a => !(pyStartsWith a "-"))
    let errors := paths.filterMap (rmPathError fs recursive force)
    if errors = [] then "" else String.intercalate "\n" errors

/-- Digit run to number, for `HistoryCommand`'s `int(args[0])`. -/
def digitsToNat (cs : List Char) : Nat :=
  cs.foldl (fun n c => n * 10 + (c.toNat - 48)) 0

/-- Right-align in four columns, the `f"{i:4d}"` format of
`HistoryCommand.execute`. -/
def pad4 (s : String) : String :=
  if 4 ≤ s.length then s else String.mk (List.replicate (4 - s.length) ' ') ++ s

/-- Embedding of `HistoryCommand.execute`: optional count prefix (Python
`history[-count:]`, which for `0` is the whole list), then numbered
lines. -/
def history_execute (hist : List String) (args : List String) : String :=
  let shown :=
    match args with
    | a :: _ =>
      if a ≠ "" && a.data.all Char.isDigit then
        let count := digitsToNat a.data
        if count = 0 then hist else hist.drop (hist.length - count)
      else hist
    | [] => hist
  let numbered := (List.range shown.length).zipWith
    (fun i cmd => pad4 (Nat.repr (i + 1)) ++ "  " ++ cmd) shown
  String.intercalate "\n" numbered

/-- The `(name, description)` pairs of the base `Terminal` registry, in
registration order of `Terminal.register_commands`. -/
def command_descriptions : List (String × String) :=
  [("pwd", "Print the current working directory"),
   ("ls", "List directory contents"),
   ("cd", "Change the current working directory"),
   ("mkdir", "Create new directories"),
   ("rm", "Remove files or directories"),
   ("touch", "Create empty files or update file timestamps"),
   ("cat", "Concatenate and print files"),
   ("echo", "Display a line of text"),
   ("ps", "Report process status"),
   ("top", "Display system resource usage and processes"),
   ("df", "Report file system disk space usage"),
   ("history", "Display command history"),
   ("clear", "Clear the terminal screen"),
   ("exit", "Exit the terminal"),
   ("help", "Display help information for commands")]

/-- The registered command names (keys of `Terminal.commands`). -/
def commandNames : List String := command_descriptions.map Prod.fst

/-- Value of `sorted(self.terminal.commands.keys())` for the base registry. -/
def sorted_command_names : List String :=
  ["cat", "cd", "clear", "df", "echo", "exit", "help", "history", "ls",
   "mkdir", "ps", "pwd", "rm", "top", "touch"]

/-- Embedding of `HelpCommand.execute`: list all commands, or `Command.help()` of
one command (`"name: description"`), or an unknown-command message. -/
def help_execute (args : List String) : String :=
  match args with
  | [] =>
    "Available commands:\n" ++
      String.intercalate "\n" (sorted_command_names.map (fun c => "  " ++ c)) ++
      "\n\nType 'help <command>' for more information on a specific command."
  | cmd :: _ =>
    match command_descriptions.find? (fun p => p.1 == cmd) with
    | some p => p.1 ++ ": " ++ p.2
    | none => "Unknown command: " ++ cmd

/-- Dispatch to a registered command's `execute(args)`. The `hist`
argument is the history as seen by `HistoryCommand` (which reads
`self.terminal.command_history`); no command writes to the history. -/
def runCommand (fs : Fs) (hist : List String) (name : String) (args : List String) : String :=
  if name = "pwd" then fs.cwd
  else if name = "ls" then fs.lsOut args
  else if name = "cd" then fs.cdOut args
  else if name = "mkdir" then fs.mkdirOut args
  else if name = "rm" then rm_execute fs args
  else if name = "touch" then fs.touchOut args
  else if name = "cat" then fs.catOut args
  else if name = "echo" then String.intercalate " " args
  else if name = "ps" then fs.psOut args
  else if name = "top" then fs.topOut
  else if name = "df" then fs.dfOut args
  else if name = "history" then history_execute hist args
  else if name = "clear" then "__CLEAR__"
  else if name = "exit" then "__EXIT__"
  else if name = "help" then help_execute args
  else ""

/-- Embedding of `Terminal.parse_command`: whitespace tokenization into command name
and argument list. -/
def parse_command (input_line : String) : String × List String :=
  match pysplit (pstrip input_line) with
  | [] => ("", [])
  | c :: args => (c, args)

/-- Embedding of `Terminal.execute_command`: blank lines produce no output and no
history entry; otherwise the raw line is appended to the history before
dispatch, and an unregistered name yields `command not found`. -/
def execute_command (fs : Fs) (st : TermState) (input_line : String) : String × TermState :=
  if pstrip input_line = "" then ("", st)
  else
    let st' : TermState := ⟨st.command_history ++ [input_line]⟩
    let (cmd_name, args) := parse_command input_line
    if commandNames.contains cmd_name then
      (runCommand fs st'.command_history cmd_name args, st')
    else
      (cmd_name ++ ": command not found", st')

example :
    execute_command
      ⟨fun _ => false, fun _ => false, "/", fun _ _ => Except.ok (), fun _ _ => Except.ok (),
       fun _ _ => Except.ok (), fun _ _ => Except.ok (), fun _ => Except.ok (), fun _ => Except.ok (),
       fun _ => "LS", fun _ => "", fun _ => "", fun _ => "", fun _ => "CAT", fun _ => "PS", "TOP",
       fun _ => "DF"⟩
      ⟨[]⟩ "echo a b" = ("a b", ⟨["echo a b"]⟩) := by decide

/-! ## Handler adapters (`NLPCommand._xxx` methods) -/

/-- The literal command line composed by `NLPCommand._create_directory`. -/
def create_directory_line (directory_name : String) : String :=
  "mkdir " ++ shlexQuote (pstrip directory_name)

/-- Embedding of `NLPCommand._create_directory`. -/
def create_directory (fs : Fs) (st : TermState) (directory_name : String) : String × TermState :=
  execute_command fs st (create_directory_line directory_name)

/-- Embedding of `NLPCommand._create_file`. -/
def create_file (fs : Fs) (st : TermState) (file_name : String) : String × TermState :=
  execute_command fs st ("touch " ++ shlexQuote (pstrip file_name))

/-- Embedding of `NLPCommand._list_directory`: an empty (falsy) slot defaults to the
current-directory marker, otherwise the slot is stripped. -/
def list_directory (fs : Fs) (st : TermState) (directory : String) : String × TermState :=
  let d := if directory = "" then "." else pstrip directory
  execute_command fs st ("ls " ++ shlexQuote d)

/-- Embedding of `NLPCommand._show_file_content`. -/
def show_file_content (fs : Fs) (st : TermState) (file_name : String) : String × TermState :=
  execute_command fs st ("cat " ++ shlexQuote (pstrip file_name))

/-- Embedding of `NLPCommand._remove_item`: directories get a recursive-capable
`rm -r`, anything else a plain `rm`. -/
def remove_item (fs : Fs) (st : TermState) (item_name : String) : String × TermState :=
  let item := pstrip item_name
  if fs.isDir item then
    execute_command fs st ("rm -r " ++ shlexQuote item)
  else
    execute_command fs st ("rm " ++ shlexQuote item)

/-- The destination-path policy of `NLPCommand._move_item`: an existing
directory destination receives the source's base name, any other
destination is the literal final path. -/
def moveDestPath (fs : Fs) (source destination : String) : String :=
  let s := pstrip source
  let d := pstrip destination
  if fs.isDir d then osJoin d (osBasename s) else d

/-- Embedding of `NLPCommand._move_item`: compute the destination path, call
`shutil.move`, and convert any exception to a descriptive message. -/
def move_item (fs : Fs) (source destination : String) : String :=
  let s := pstrip source
  let d := pstrip destination
  match fs.moveRes s (moveDestPath fs source destination) with
  | Except.ok _ => "Moved " ++ s ++ " to " ++ d
  | Except.error e => "Error moving " ++ s ++ " to " ++ d ++ ": " ++ e

/-- Embedding of `NLPCommand._rename_item`: `os.rename` with exception capture. -/
def rename_item (fs : Fs) (old_name new_name : String) : String :=
  let o := pstrip old_name
  let n := pstrip new_name
  match fs.renameRes o n with
  | Except.ok _ => "Renamed " ++ o ++ " to " ++ n
  | Except.error e => "Error renaming " ++ o ++ " to " ++ n ++ ": " ++ e

/-- The destination-path policy of `NLPCommand._copy_item` (both the
directory-source and file-source branches). -/
def copyDestPath (fs : Fs) (s d : String) : String :=
  if fs.isDir s then
    if fs.pathExists d then osJoin d (osBasename s) else d
  else
    if fs.isDir d then osJoin d (osBasename s) else d

/-- The `shutil` call `NLPCommand._copy_item` performs: `copytree` for
a directory source, `copy2` otherwise. -/
def copyOpRes (fs : Fs) (s d : String) : Except String Unit :=
  if fs.isDir s then fs.copytreeRes s (copyDestPath fs s d)
  else fs.copy2Res s (copyDestPath fs s d)

/-- Embedding of `NLPCommand._copy_item` with exception capture. -/
def copy_item (fs : Fs) (source destination : String) : String :=
  let s := pstrip source
  let d := pstrip destination
  match copyOpRes fs s d with
  | Except.ok _ => "Copied " ++ s ++ " to " ++ d
  | Except.error e => "Error copying " ++ s ++ " to " ++ d ++ ": " ++ e

/-- Embedding of `NLPCommand._change_directory`. -/
def change_directory (fs : Fs) (st : TermState) (directory : String) : String × TermState :=
  execute_command fs st ("cd " ++ shlexQuote (pstrip directory))

/-- Leftmost maximal word-character run, the `re.search(r"(\w+)", ...)`
inside `NLPCommand._show_command_help`. -/
def firstWordGroup : List Char → Option String
  | [] => none
  | c :: cs =>
    if pyIsWordChar c then some (String.mk (c :: cs.takeWhile pyIsWordChar))
    else firstWordGroup cs

/-- Embedding of `NLPCommand._show_command_help`. -/
def show_command_help (fs : Fs) (st : TermState) (command : String) : String × TermState :=
  let command := pstrip command
  match firstWordGroup command.data with
  | some cmd => execute_command fs st ("help " ++ cmd)
  | none => execute_command fs st "help"

/-! ## The resolution engine (`NLPCommand.execute`) -/

/-- The example utterances of `NLPCommand._show_examples`. -/
def examples_list : List String :=
  ["create a new folder called Projects",
   "make a new directory named Backup",
   "create a new file called notes.txt",
   "show files in Downloads",
   "list contents of the current directory",
   "what files are in Documents",
   "show content of file.txt",
   "read config.ini",
   "delete file temp.txt",
   "remove directory OldStuff",
   "move file report.pdf to Documents",
   "rename file old.txt to new.txt",
   "copy file important.docx to Backup",
   "change to directory Projects",
   "go to Documents",
   "show running processes",
   "display system usage",
   "show disk space",
   "where is my current location",
   "show command history",
   "list available commands",
   "help with creating files",
   "clear the screen",
   "exit terminal"]

/-- Embedding of `NLPCommand._show_examples`: the static examples listing. -/
def show_examples : String :=
  "Natural Language Command Examples:\n" ++
    String.intercalate "\n" (examples_list.map (fun e => "  - " ++ e))

/-- The reserved help keywords checked by
`query.lower() in ["help", "examples"]`. -/
def help_keywords : List String := ["help", "examples"]

/-- The fixed guidance message for an empty query. -/
def guidance_message : String :=
  "Please enter a natural language command. Type 'nlp help' for examples."

/-- The fallback message when no pattern matches. -/
def not_understood_message (query : String) : String :=
  "I don't understand '" ++ query ++
    "'. Type 'nlp help' for examples of commands I understand."

/-- The outcome of one resolution call, before handler side effects:
either one of the three fixed-text paths, or the first matching
pattern's handler together with its captured slots. -/
inductive NLPResult
  | guidance
  | examples
  | invoked (h : Handler) (slots : List String)
  | notUnderstood (query : String)
  deriving DecidableEq, Repr

/-- The scan loop of `NLPCommand.execute`: first pattern whose
`re.search` succeeds wins, yielding its handler and groups. -/
def scanPatterns (query : String) : List (List Tok × Handler) → Option (Handler × List String)
  | [] => none
  | (p, h) :: rest =>
    match searchPat p query with
    | some gs => some (h, gs)
    | none => scanPatterns query rest

/-- The control flow of `NLPCommand.execute` on the joined query. -/
def nlpResolve (query : String) : NLPResult :=
  if query = "" then NLPResult.guidance
  else if help_keywords.contains (pyLower query) then NLPResult.examples
  else
    match scanPatterns query commandPatterns with
    | some (h, gs) => NLPResult.invoked h gs
    | none => NLPResult.notUnderstood query

/-- Run a matched handler on its captured slots
(`handler(*match.groups())`). Pattern arities and handler arities agree
throughout the table, so the catch-all row is unreachable from
`nlpResolve`. -/
def runHandler (fs : Fs) (st : TermState) : Handler → List String → String × TermState
  | Handler.createDirectory, [d] => create_directory fs st d
  | Handler.createFile, [f] => create_file fs st f
  | Handler.listDirectory, [d] => list_directory fs st d
  | Handler.showFileContent, [f] => show_file_content fs st f
  | Handler.removeItem, [t] => remove_item fs st t
  | Handler.moveItem, [s, d] => (move_item fs s d, st)
  | Handler.renameItem, [a, b] => (rename_item fs a b, st)
  | Handler.copyItem, [s, d] => (copy_item fs s d, st)
  | Handler.changeDirectory, [d] => change_directory fs st d
  | Handler.listProcesses, [] => execute_command fs st "ps"
  | Handler.showResourceUsage, [] => execute_command fs st "top"
  | Handler.showDiskUsage, [] => execute_command fs st "df -h"
  | Handler.showCurrentDirectory, [] => execute_command fs st "pwd"
  | Handler.showHistory, [] => execute_command fs st "history"
  | Handler.showHelp, [] => execute_command fs st "help"
  | Handler.showCommandHelp, [c] => show_command_help fs st c
  | Handler.exitTerminal, [] => execute_command fs st "exit"
  | Handler.clearScreen, [] => execute_command fs st "clear"
  | _, _ => ("", st)

/-- Embedding of `NLPCommand.execute` on the joined query string: resolve, then
produce the result text (running the matched handler if any). -/
def nlpRunQuery (fs : Fs) (st : TermState) (query : String) : String × TermState :=
  match nlpResolve query with
  | NLPResult.guidance => (guidance_message, st)
  | NLPResult.examples => (show_examples, st)
  | NLPResult.invoked h gs => runHandler fs st h gs
  | NLPResult.notUnderstood q => (not_understood_message q, st)

/-- Embedding of `NLPCommand.execute(args)`: the query is `" ".join(args)`. -/
def nlp_execute (fs : Fs) (st : TermState) (args : List String) : String × TermState :=
  nlpRunQuery fs st (String.intercalate " " args)

example : nlpResolve "show files in Downloads" = NLPResult.invoked Handler.listDirectory ["Downloads"] := by decide
example : nlpResolve "" = NLPResult.guidance := by decide
example : nlpResolve "HELP" = NLPResult.examples := by decide

/-! ## Concrete oracle instances for witnesses -/

/-- An oracle where nothing is a directory, nothing exists, and every
operation succeeds. -/
def fsDefault : Fs where
  isDir := fun _ => false
  pathExists := fun _ => false
  cwd := "/home/user"
  moveRes := fun _ _ => Except.ok ()
  renameRes := fun _ _ => Except.ok ()
  copytreeRes := fun _ _ => Except.ok ()
  copy2Res := fun _ _ => Except.ok ()
  rmtreeRes := fun _ => Except.ok ()
  removeRes := fun _ => Except.ok ()
  lsOut := fun _ => ""
  cdOut := fun _ => ""
  mkdirOut := fun _ => ""
  touchOut := fun _ => ""
  catOut := fun _ => ""
  psOut := fun _ => ""
  topOut := ""
  dfOut := fun _ => ""

/-- An oracle where exactly `Documents` is an existing directory. -/
def fsDocuments : Fs := { fsDefault with isDir := fun p => p == "Documents" }

/-- An oracle where exactly `OldStuff` is an existing directory. -/
def fsOldStuff : Fs := { fsDefault with isDir := fun p => p == "OldStuff" }

/-- An oracle where every mutating filesystem call raises
`PermissionError`-style exceptions. -/
def fsFailing : Fs :=
  { fsDefault with
      moveRes := fun _ _ => Except.error "Permission denied"
      renameRes := fun _ _ => Except.error "Permission denied"
      copytreeRes := fun _ _ => Except.error "Permission denied"
      copy2Res := fun _ _ => Except.error "Permission denied" }

/-! ## Shared lemmas -/

/-- First-match principle of the scan loop: if entry `i` matches and
every earlier entry fails, the scan yields entry `i`'s handler and
groups. -/
theorem scanPatterns_eq_of_first (q : String) :
    ∀ (l : List (List Tok × Handler)) (i : Nat) (p : List Tok) (h : Handler) (gs : List String),
      l.get? i = some (p, h) →
      searchPat p q = some gs →
      ((l.take i).all fun ph => (searchPat ph.1 q).isNone) = true →
      scanPatterns q l = some (h, gs) := by
  intro l
  induction l with
  | nil =>
    intro i p h gs hget _ _
    simp [List.get?] at hget
  | cons x rest ih =>
    intro i p h gs hget hsearch hall
    cases i with
    | zero =>
      simp only [List.get?] at hget
      injection hget with hx
      subst hx
      simp [scanPatterns, hsearch]
    | succ n =>
      simp only [List.get?] at hget
      simp only [List.take, List.all_cons, Bool.and_eq_true] at hall
      obtain ⟨hx, hrest⟩ := hall
      obtain ⟨px, hx'⟩ := x
      have hnone : searchPat px q = none := by
        simpa [Option.isNone_iff_eq_none] using hx
      simp only [scanPatterns, hnone]
      exact ih n p h gs hget hsearch hrest

/-- If every entry fails, the scan yields nothing. -/
theorem scanPatterns_eq_none (q : String) :
    ∀ l : List (List Tok × Handler),
      (l.all fun ph => (searchPat ph.1 q).isNone) = true →
      scanPatterns q l = none := by
  intro l
  induction l with
  | nil => intro _; rfl
  | cons x rest ih =>
    intro hall
    simp only [List.all_cons, Bool.and_eq_true] at hall
    obtain ⟨hx, hrest⟩ := hall
    obtain ⟨px, hx'⟩ := x
    have hnone : searchPat px q = none := by
      simpa [Option.isNone_iff_eq_none] using hx
    simp only [scanPatterns, hnone]
    exact ih hrest

/-- A blank line is a no-op for `Terminal.execute_command`. -/
theorem execute_command_blank (fs : Fs) (st : TermState) (line : String)
    (h : pstrip line = "") : execute_command fs st line = ("", st) := by
  simp [execute_command, h]

/-- A non-blank line is appended to the history, whatever the dispatch
outcome. -/
theorem execute_command_appends (fs : Fs) (st : TermState) (line : String)
    (h : ¬ pstrip line = "") :
    (execute_command fs st line).2 = TermState.mk (st.command_history ++ [line]) := by
  rcases hp : parse_command line with ⟨c, args⟩
  simp only [execute_command, if_neg h, hp]
  split <;> rfl

/-- An unregistered command name reports `command not found`. -/
theorem execute_command_not_found (fs : Fs) (st : TermState) (line : String)
    (h : ¬ pstrip line = "")
    (hn : commandNames.contains (parse_command line).1 = false) :
    (execute_command fs st line).1 = (parse_command line).1 ++ ": command not found" := by
  rcases hp : parse_command line with ⟨c, args⟩
  rw [hp] at hn
  simp only [execute_command, if_neg h, hp]
  simp only at hn
  have hmem : c ∉ commandNames := by simpa using hn
  simp [hmem]

/-- If `s` contains a non-whitespace character, `s.strip()` is not
empty. -/
theorem pstrip_ne_empty_of_mem (s : String) (c : Char)
    (hm : c ∈ s.data) (hc : pyIsSpaceChar c = false) : ¬ pstrip s = "" := by
  intro h
  have hdata : (((s.data.dropWhile pyIsSpaceChar).reverse).dropWhile pyIsSpaceChar).reverse = [] :=
    congrArg String.data h
  rw [List.reverse_eq_nil_iff, List.dropWhile_eq_nil_iff] at hdata
  have hall : ∀ x ∈ s.data.dropWhile pyIsSpaceChar, pyIsSpaceChar x = true := by
    intro x hx
    exact hdata x (List.mem_reverse.mpr hx)
  have hmem2 : c ∈ s.data.dropWhile pyIsSpaceChar := by
    have hsplit := List.takeWhile_append_dropWhile pyIsSpaceChar s.data
    rw [← hsplit] at hm
    rcases List.mem_append.mp hm with htake | hdrop
    · have := List.mem_takeWhile_imp htake
      rw [hc] at this
      exact absurd this (by simp)
    · exact hdrop
  have := hall c hmem2
  rw [hc] at this
  exact absurd this (by simp)

/-! ## Claim theorems -/

/-- C1: for every non-empty utterance that is not a help keyword, the
resolution engine scans `command_patterns` in registration order; at
the first entry whose recognizer matches it invokes that entry's bound
handler on the captured slots (in left-to-right order) and returns its
result, so no later entry's handler ever runs and exactly one handler
(or none) is invoked per call. -/
theorem nlp_first_match_fires (fs : Fs) (st : TermState) (q : String)
    (i : Nat) (p : List Tok) (h : Handler) (gs : List String)
    (hq : ¬ q = "")
    (hk : help_keywords.contains (pyLower q) = false)
    (hi : commandPatterns.get? i = some (p, h))
    (hm : searchPat p q = some gs)
    (hearlier : ((commandPatterns.take i).all fun ph => (searchPat ph.1 q).isNone) = true) :
    nlpResolve q = NLPResult.invoked h gs ∧
    nlpRunQuery fs st q = runHandler fs st h gs := by
  have hscan := scanPatterns_eq_of_first q commandPatterns i p h gs hi hm hearlier
  have hk' : pyLower q ∉ help_keywords := by simpa using hk
  have hres : nlpResolve q = NLPResult.invoked h gs := by
    simp [nlpResolve, hq, hk', hscan]
  exact ⟨hres, by simp [nlpRunQuery, hres]⟩

/-- Witness for C1 at the concrete utterance
`show files in cat pictures`, which is matched by two table entries:
the listing pattern (registered fifth) and the file-content pattern
(registered eighth, whose `cat` alternative matches as a substring).
The first-registered one fires with slot `cat pictures`. -/
theorem nlp_first_match_fires_witness :
    (¬ "show files in cat pictures" = "" ∧
      (searchPat pat_read_file "show files in cat pictures").isSome = true) ∧
    nlpResolve "show files in cat pictures" =
      NLPResult.invoked Handler.listDirectory ["cat pictures"] :=
  ⟨⟨by decide, by decide⟩,
    (nlp_first_match_fires fsDefault ⟨[]⟩ "show files in cat pictures" 4
      pat_show_files Handler.listDirectory ["cat pictures"]
      (by decide) (by decide) (by decide) (by decide) (by decide)).1⟩

/-- C4: a non-empty, non-help utterance matched by no pattern invokes
no handler and yields the fixed message naming the literal utterance
and pointing at the help keyword. -/
theorem nlp_no_match_fallback (fs : Fs) (st : TermState) (q : String)
    (hq : ¬ q = "")
    (hk : help_keywords.contains (pyLower q) = false)
    (hnone : (commandPatterns.all fun ph => (searchPat ph.1 q).isNone) = true) :
    nlpResolve q = NLPResult.notUnderstood q ∧
    nlpRunQuery fs st q =
      ("I don't understand '" ++ q ++
        "'. Type 'nlp help' for examples of commands I understand.", st) ∧
    ∀ h gs, ¬ nlpResolve q = NLPResult.invoked h gs := by
  have hscan := scanPatterns_eq_none q commandPatterns hnone
  have hk' : pyLower q ∉ help_keywords := by simpa using hk
  have hres : nlpResolve q = NLPResult.notUnderstood q := by
    simp [nlpResolve, hq, hk', hscan]
  refine ⟨hres, by simp [nlpRunQuery, hres, not_understood_message], ?_⟩
  intro h gs hcontra
  rw [hres] at hcontra
  exact absurd hcontra (by simp)

/-- Witness for C4 at `frobnicate the zonkulator`. -/
theorem nlp_no_match_fallback_witness :
    nlpRunQuery fsDefault ⟨[]⟩ "frobnicate the zonkulator" =
      ("I don't understand 'frobnicate the zonkulator'. Type 'nlp help' for examples of commands I understand.",
        ⟨[]⟩) :=
  (nlp_no_match_fallback fsDefault ⟨[]⟩ "frobnicate the zonkulator"
    (by decide) (by decide) (by decide)).2.1

/-- Splitting an all-whitespace character list yields no tokens. -/
theorem pysplitAux_all_space (cs : List Char)
    (h : cs.all pyIsSpaceChar = true) : pysplitAux cs [] = [] := by
  induction cs with
  | nil => rfl
  | cons c rest ih =>
    simp only [List.all_cons, Bool.and_eq_true] at h
    obtain ⟨hc, hrest⟩ := h
    simp [pysplitAux, hc, ih hrest]

/-- C5: an empty or whitespace-only utterance — which the dispatcher's
tokenization turns into an empty argument list — makes resolution
return the fixed guidance message as ordinary text and invoke no
pattern handler. -/
theorem nlp_blank_input_guidance (fs : Fs) (st : TermState) (u : String)
    (hws : u.data.all pyIsSpaceChar = true) :
    nlp_execute fs st (pysplit u) =
      ("Please enter a natural language command. Type 'nlp help' for examples.", st) ∧
    nlpResolve (String.intercalate " " (pysplit u)) = NLPResult.guidance ∧
    ∀ h gs, ¬ nlpResolve (String.intercalate " " (pysplit u)) = NLPResult.invoked h gs := by
  have hsplit : pysplit u = [] := pysplitAux_all_space u.data hws
  refine ⟨?_, ?_, ?_⟩
  · rw [nlp_execute, hsplit]
    rfl
  · rw [hsplit]
    rfl
  · intro h gs hcontra
    rw [hsplit] at hcontra
    have hginterp : nlpResolve (String.intercalate " " ([] : List String)) = NLPResult.guidance := rfl
    rw [hginterp] at hcontra
    exact absurd hcontra (by simp)

/-- Witness for C5 at the whitespace-only input line consisting of
three spaces. -/
theorem nlp_blank_input_guidance_witness :
    nlp_execute fsDefault ⟨[]⟩ (pysplit "   ") =
      ("Please enter a natural language command. Type 'nlp help' for examples.", ⟨[]⟩) :=
  (nlp_blank_input_guidance fsDefault ⟨[]⟩ "   " (by decide)).1

/-- C6: an utterance that case-insensitively equals a reserved help
keyword returns the static examples listing, bypassing the pattern
table, so no pattern handler is invoked. -/
theorem nlp_help_keyword_examples (fs : Fs) (st : TermState) (q : String)
    (hk : pyLower q = "help" ∨ pyLower q = "examples") :
    nlpResolve q = NLPResult.examples ∧
    nlpRunQuery fs st q = (show_examples, st) ∧
    ∀ h gs, ¬ nlpResolve q = NLPResult.invoked h gs := by
  have hq : ¬ q = "" := by
    intro hempty
    subst hempty
    rcases hk with hcase | hcase <;> exact absurd hcase (by decide)
  have hmem : pyLower q ∈ help_keywords := by
    rcases hk with hcase | hcase <;> rw [hcase] <;> decide
  have hres : nlpResolve q = NLPResult.examples := by
    simp [nlpResolve, hq, hmem]
  refine ⟨hres, by simp [nlpRunQuery, hres], ?_⟩
  intro h gs hcontra
  rw [hres] at hcontra
  exact absurd hcontra (by simp)

/-- Witness for C6 at the mixed-case utterance `HeLp`. -/
theorem nlp_help_keyword_examples_witness :
    nlpResolve "HeLp" = NLPResult.examples ∧
    nlpRunQuery fsDefault ⟨[]⟩ "HeLp" = (show_examples, ⟨[]⟩) :=
  ⟨(nlp_help_keyword_examples fsDefault ⟨[]⟩ "HeLp" (Or.inl (by decide))).1,
   (nlp_help_keyword_examples fsDefault ⟨[]⟩ "HeLp" (Or.inl (by decide))).2.1⟩

/-- C9: `show files in Downloads` extracts the single slot `Downloads`
and dispatches a listing invocation with exactly that argument, while
`show files in` captures an empty slot and dispatches the listing with
the current-directory marker `.` instead. -/
theorem nlp_listing_slot_extraction (fs : Fs) (st : TermState) :
    nlpResolve "show files in Downloads" =
      NLPResult.invoked Handler.listDirectory ["Downloads"] ∧
    nlpRunQuery fs st "show files in Downloads" = execute_command fs st "ls Downloads" ∧
    parse_command "ls Downloads" = ("ls", ["Downloads"]) ∧
    (nlpRunQuery fs st "show files in Downloads").1 = fs.lsOut ["Downloads"] ∧
    nlpResolve "show files in" = NLPResult.invoked Handler.listDirectory [""] ∧
    nlpRunQuery fs st "show files in" = execute_command fs st "ls ." ∧
    parse_command "ls ." = ("ls", ["."]) ∧
    (nlpRunQuery fs st "show files in").1 = fs.lsOut ["."] :=
  ⟨by decide, rfl, by decide, rfl, by decide, rfl, by decide, rfl⟩

/-- C3: the move adapter's destination policy. If the (stripped)
destination slot names an existing directory the final path is the
destination joined with the source's base name, otherwise it is the
destination itself; in particular `move report.pdf to Documents`
resolves to slots `report.pdf` / `Documents` and lands at
`Documents/report.pdf` exactly when `Documents` is an existing
directory. -/
theorem move_destination_policy (fs : Fs) (S D : String) :
    (fs.isDir (pstrip D) = true →
      moveDestPath fs S D = osJoin (pstrip D) (osBasename (pstrip S))) ∧
    (fs.isDir (pstrip D) = false → moveDestPath fs S D = pstrip D) ∧
    nlpResolve "move report.pdf to Documents" =
      NLPResult.invoked Handler.moveItem ["report.pdf", "Documents"] ∧
    (fs.isDir "Documents" = true →
      moveDestPath fs "report.pdf" "Documents" = "Documents/report.pdf") ∧
    (fs.isDir "Documents" = false →
      moveDestPath fs "report.pdf" "Documents" = "Documents") := by
  have ed : pstrip "Documents" = "Documents" := by decide
  have es : pstrip "report.pdf" = "report.pdf" := by decide
  refine ⟨?_, ?_, by decide, ?_, ?_⟩
  · intro h
    simp [moveDestPath, h]
  · intro h
    simp [moveDestPath, h]
  · intro h
    simp only [moveDestPath, ed, es, h, if_true]
    decide
  · intro h
    simp [moveDestPath, ed, h]

/-- Witness for C3: with an oracle where exactly `Documents` is a
directory the joined path results, and with one where nothing is a
directory the literal destination results. -/
theorem move_destination_policy_witness :
    moveDestPath fsDocuments "report.pdf" "Documents" = "Documents/report.pdf" ∧
    moveDestPath fsDefault "report.pdf" "Documents" = "Documents" :=
  ⟨(move_destination_policy fsDocuments "report.pdf" "Documents").2.2.2.1 (by decide),
   (move_destination_policy fsDefault "report.pdf" "Documents").2.2.2.2 (by decide)⟩

/-- C2 (violated by the code): the directory-creation adapter escapes
its slot with `shlex.quote`, but `Terminal.parse_command` tokenizes
with plain whitespace `split()`, so the slot `Projects Folder` — which
the pattern table can extract, first conjunct — composes the line
`mkdir 'Projects Folder'` that tokenizes back into the two argument
tokens `'Projects` and `Folder'` rather than one token equal in effect
to the slot. Only for slots made of `shlex`-safe characters (such as
`Projects`) does the round trip produce a single equal token. -/
theorem slot_quote_split_mismatch :
    nlpResolve "create a new folder called Projects Folder" =
      NLPResult.invoked Handler.createDirectory ["Projects Folder"] ∧
    create_directory_line "Projects Folder" = "mkdir 'Projects Folder'" ∧
    parse_command (create_directory_line "Projects Folder") =
      ("mkdir", ["'Projects", "Folder'"]) ∧
    (parse_command (create_directory_line "Projects Folder")).2.length = 2 ∧
    create_directory_line "Projects" = "mkdir Projects" ∧
    parse_command (create_directory_line "Projects") = ("mkdir", ["Projects"]) :=
  ⟨by decide, by decide, by decide, by decide, by decide, by decide⟩

/-- C7: each direct adapter (move, rename, copy) catches the underlying
filesystem exception and converts it to a descriptive text result that
names both (stripped) slot values and the error description; in every
case the adapter returns one of its two fixed message shapes, so no
exception escapes to the resolution engine's caller. -/
theorem direct_adapter_error_capture (fs : Fs) (S D e : String) :
    (fs.moveRes (pstrip S) (moveDestPath fs S D) = Except.error e →
      move_item fs S D = "Error moving " ++ pstrip S ++ " to " ++ pstrip D ++ ": " ++ e) ∧
    (fs.renameRes (pstrip S) (pstrip D) = Except.error e →
      rename_item fs S D = "Error renaming " ++ pstrip S ++ " to " ++ pstrip D ++ ": " ++ e) ∧
    (copyOpRes fs (pstrip S) (pstrip D) = Except.error e →
      copy_item fs S D = "Error copying " ++ pstrip S ++ " to " ++ pstrip D ++ ": " ++ e) ∧
    (move_item fs S D = "Moved " ++ pstrip S ++ " to " ++ pstrip D ∨
      ∃ e2, move_item fs S D = "Error moving " ++ pstrip S ++ " to " ++ pstrip D ++ ": " ++ e2) ∧
    (rename_item fs S D = "Renamed " ++ pstrip S ++ " to " ++ pstrip D ∨
      ∃ e2, rename_item fs S D = "Error renaming " ++ pstrip S ++ " to " ++ pstrip D ++ ": " ++ e2) ∧
    (copy_item fs S D = "Copied " ++ pstrip S ++ " to " ++ pstrip D ∨
      ∃ e2, copy_item fs S D = "Error copying " ++ pstrip S ++ " to " ++ pstrip D ++ ": " ++ e2) := by
  refine ⟨?_, ?_, ?_, ?_, ?_, ?_⟩
  · intro h
    simp [move_item, h]
  · intro h
    simp [rename_item, h]
  · intro h
    simp [copy_item, h]
  · cases h : fs.moveRes (pstrip S) (moveDestPath fs S D) with
    | ok v => left; simp [move_item, h]
    | error e2 => right; exact ⟨e2, by simp [move_item, h]⟩
  · cases h : fs.renameRes (pstrip S) (pstrip D) with
    | ok v => left; simp [rename_item, h]
    | error e2 => right; exact ⟨e2, by simp [rename_item, h]⟩
  · cases h : copyOpRes fs (pstrip S) (pstrip D) with
    | ok v => left; simp [copy_item, h]
    | error e2 => right; exact ⟨e2, by simp [copy_item, h]⟩

/-- Witness for C7: with an oracle whose mutating calls all raise, the
three adapters return the corresponding descriptive messages. -/
theorem direct_adapter_error_capture_witness :
    move_item fsFailing "report.pdf" "Documents" =
      "Error moving report.pdf to Documents: Permission denied" ∧
    rename_item fsFailing "old.txt" "new.txt" =
      "Error renaming old.txt to new.txt: Permission denied" ∧
    copy_item fsFailing "important.docx" "Backup" =
      "Error copying important.docx to Backup: Permission denied" := by
  refine ⟨?_, ?_, ?_⟩
  · have h := (direct_adapter_error_capture fsFailing "report.pdf" "Documents"
      "Permission denied").1 rfl
    rw [h]
    decide
  · have h := (direct_adapter_error_capture fsFailing "old.txt" "new.txt"
      "Permission denied").2.1 rfl
    rw [h]
    decide
  · have h := (direct_adapter_error_capture fsFailing "important.docx" "Backup"
      "Permission denied").2.2.1 rfl
    rw [h]
    decide

/-- The composed `rm` lines are never blank, so `execute_command`
records them. -/
theorem pstrip_rm_line_ne_empty (x : String) :
    (¬ pstrip ("rm -r " ++ x) = "") ∧ (¬ pstrip ("rm " ++ x) = "") := by
  constructor
  · refine pstrip_ne_empty_of_mem _ 'r' ?_ (by decide)
    show 'r' ∈ 'r' :: ("m -r ".data ++ x.data)
    exact List.mem_cons_self _ _
  · refine pstrip_ne_empty_of_mem _ 'r' ?_ (by decide)
    show 'r' ∈ 'r' :: ("m ".data ++ x.data)
    exact List.mem_cons_self _ _

/-- C8: the remove adapter branches on whether the trimmed target is an
existing directory, dispatching `rm -r <target>` for a directory and
plain `rm <target>` otherwise (first two conjuncts, observed through
the dispatched line recorded in the history); the underlying `rm`
handler indeed refuses a directory without a recursive flag (third
conjunct), and on the concrete targets `OldStuff` / `temp.txt` the
dispatch reaches `RmCommand.execute` with `["-r", target]` resp.
`[target]` (last two conjuncts). -/
theorem remove_adapter_directory_branch (fs : Fs) (st : TermState) (item p : String) :
    (fs.isDir (pstrip item) = true →
      (remove_item fs st item).2.command_history =
        st.command_history ++ ["rm -r " ++ shlexQuote (pstrip item)]) ∧
    (fs.isDir (pstrip item) = false →
      (remove_item fs st item).2.command_history =
        st.command_history ++ ["rm " ++ shlexQuote (pstrip item)]) ∧
    (fs.isDir p = true → pyStartsWith p "-" = false →
      rm_execute fs [p] = "rm: cannot remove '" ++ p ++ "': Is a directory") ∧
    (fs.isDir "OldStuff" = true →
      (remove_item fs st "OldStuff").1 = rm_execute fs ["-r", "OldStuff"]) ∧
    (fs.isDir "temp.txt" = false →
      (remove_item fs st "temp.txt").1 = rm_execute fs ["temp.txt"]) := by
  refine ⟨?_, ?_, ?_, ?_, ?_⟩
  · intro h
    have hline := execute_command_appends fs st ("rm -r " ++ shlexQuote (pstrip item))
      (pstrip_rm_line_ne_empty (shlexQuote (pstrip item))).1
    simp only [remove_item, h, if_true]
    rw [hline]
  · intro h
    have hline := execute_command_appends fs st ("rm " ++ shlexQuote (pstrip item))
      (pstrip_rm_line_ne_empty (shlexQuote (pstrip item))).2
    simp only [remove_item, h]
    rw [if_neg (by simp), hline]
  · intro hdir hdash
    have hpaths : [p].filter (fun a => !(pyStartsWith a "-")) = [p] := by
      simp [List.filter, hdash]
    have h1 : ("-r" == p) = false := by
      refine beq_eq_false_iff_ne.mpr ?_
      intro hc
      rw [← hc] at hdash
      exact absurd hdash (by decide)
    have h2 : ("--recursive" == p) = false := by
      refine beq_eq_false_iff_ne.mpr ?_
      intro hc
      rw [← hc] at hdash
      exact absurd hdash (by decide)
    have hrec : ([p].contains "-r" || [p].contains "--recursive") = false := by
      simp [List.contains, List.elem, h1, h2]
    simp only [rm_execute]
    rw [if_neg (by simp)]
    simp only [hpaths, hrec]
    have hstep : rmPathError fs false ([p].contains "-f" || [p].contains "--force") p =
        some ("rm: cannot remove '" ++ p ++ "': Is a directory") := by
      simp [rmPathError, hdir]
    simp only [List.filterMap_cons, hstep, List.filterMap_nil]
    rw [if_neg (by simp)]
    rfl
  · intro h
    have key : remove_item fs st "OldStuff" = execute_command fs st "rm -r OldStuff" := by
      simp only [remove_item]
      rw [show pstrip "OldStuff" = "OldStuff" from by decide, h]
      rfl
    rw [key]
    rfl
  · intro h
    have key : remove_item fs st "temp.txt" = execute_command fs st "rm temp.txt" := by
      simp only [remove_item]
      rw [show pstrip "temp.txt" = "temp.txt" from by decide, h]
      rfl
    rw [key]
    rfl

/-- Witness for C8: with the `OldStuff`-directory oracle the adapter
dispatches the recursive line, with the empty oracle the plain line,
and the plain `rm` of a directory refuses. -/
theorem remove_adapter_directory_branch_witness :
    (remove_item fsOldStuff ⟨[]⟩ "OldStuff").2.command_history = ["rm -r OldStuff"] ∧
    (remove_item fsDefault ⟨[]⟩ "temp.txt").2.command_history = ["rm temp.txt"] ∧
    rm_execute fsOldStuff ["OldStuff"] =
      "rm: cannot remove 'OldStuff': Is a directory" := by
  refine ⟨?_, ?_, ?_⟩
  · have h := (remove_adapter_directory_branch fsOldStuff ⟨[]⟩ "OldStuff" "x").1 (by decide)
    rw [h]
    decide
  · have h := (remove_adapter_directory_branch fsDefault ⟨[]⟩ "temp.txt" "x").2.1 (by decide)
    rw [h]
    decide
  · exact (remove_adapter_directory_branch fsOldStuff ⟨[]⟩ "y" "OldStuff").2.2.1
      (by decide) (by decide)

/-- C10: a call to `Terminal.execute_command` with a line containing
any non-whitespace character appends exactly that raw line to
`command_history` before dispatch — also when the command name is
unregistered, in which case the output is `<name>: command not found` —
while a whitespace-only line returns the empty string and leaves the
state untouched. Commands receive the history read-only, so history
grows append-only across all operations. -/
theorem execute_command_history_invariant (fs : Fs) (st : TermState) (line : String) :
    (¬ pstrip line = "" →
      (execute_command fs st line).2.command_history = st.command_history ++ [line] ∧
      (commandNames.contains (parse_command line).1 = false →
        (execute_command fs st line).1 = (parse_command line).1 ++ ": command not found")) ∧
    (pstrip line = "" → execute_command fs st line = ("", st)) := by
  constructor
  · intro h
    constructor
    · rw [execute_command_appends fs st line h]
    · intro hn
      exact execute_command_not_found fs st line h hn
  · intro h
    exact execute_command_blank fs st line h

/-- Witness for C10 at the unregistered line `frobnicate now` (history
gains exactly that line, output reports `command not found`) and the
whitespace-only line of three spaces (no history entry, empty
output). -/
theorem execute_command_history_invariant_witness :
    (execute_command fsDefault ⟨["ls"]⟩ "frobnicate now").2.command_history =
      ["ls", "frobnicate now"] ∧
    (execute_command fsDefault ⟨["ls"]⟩ "frobnicate now").1 =
      "frobnicate: command not found" ∧
    execute_command fsDefault ⟨["ls"]⟩ "   " = ("", ⟨["ls"]⟩) := by
  have hmain := execute_command_history_invariant fsDefault ⟨["ls"]⟩ "frobnicate now"
  have hblank := execute_command_history_invariant fsDefault ⟨["ls"]⟩ "   "
  refine ⟨?_, ?_, ?_⟩
  · rw [(hmain.1 (by decide)).1]
    rfl
  · have h := (hmain.1 (by decide)).2 (by decide)
    rw [h]
    decide
  · exact hblank.2 (by decide)
